import Mathlib

/-!
Shallow embedding of the car-management canister
(src/src/icp_rust_boilerplate_backend/src/lib.rs) and proofs about it.

Modelling conventions:
* `u64` values computed by the program (the two id counters) are `Nat`
  with an explicit `% 2 ^ 64` at the increment, matching wrapping
  release-mode arithmetic on `current_value + 1`.
* The ambient environment of a canister call (`time()`, `caller()`)
  is an explicit `Ctx` argument threaded into every update method;
  `caller()` is its textual principal, compared by string equality
  exactly as `_check_if_owner` does.
* Each `StableBTreeMap` is an association list `List (Nat × α)` with
  first-match lookup, replace-in-place insert and key-removal; the
  thread-local cells plus the three maps form one `CanisterState`.
* Fallible update calls return `Except Error α × CanisterState`
  (result plus post-state).  `add_customer`, whose validation failure
  is an `assert!` trap, returns `Option (Customer × CanisterState)`:
  `none` models the trap (the call aborts and, per canister
  semantics, leaves no state change); on the non-trapping path the
  Rust `Option<Customer>` is always `Some`.
* Validation mirrors the `validator` attributes on the payload
  structs; the error string produced by the validator library is
  opaque and modelled by a fixed message.
-/

namespace CMS

/-- Vehicle record persisted in the car map (`struct Car`). -/
structure Car where
  id : Nat
  make : String
  model : String
  year : Nat
  color : String
  created_at : Nat
  updated_at : Option Nat
  owner : String
  is_booked : Bool
deriving Repr, DecidableEq

/-- Input payload of `add_car` / `update_car` (`struct CarPayload`). -/
structure CarPayload where
  make : String
  model : String
  year : Nat
  color : String
  is_booked : Bool
deriving Repr, DecidableEq

/-- The `validator` attributes on `CarPayload`: `length(min = 2)` on
`make` and `model`, `range(min = 1880, max = 2024)` on `year`,
`length(min = 1)` on `color`. -/
def CarPayload.validate (p : CarPayload) : Bool :=
  decide (2 ≤ p.make.length) && decide (2 ≤ p.model.length) &&
    decide (1880 ≤ p.year) && decide (p.year ≤ 2024) && decide (1 ≤ p.color.length)

/-- Customer record (`struct Customer`). -/
structure Customer where
  id : Nat
  name : String
  contact : String
deriving Repr, DecidableEq

/-- Input payload of `add_customer` (`struct CustomerPayload`). -/
structure CustomerPayload where
  name : String
  contact : String
deriving Repr, DecidableEq

/-- The `validator` attribute on `CustomerPayload`: `length(min = 1)` on
`name`; `contact` is unconstrained. -/
def CustomerPayload.validate (p : CustomerPayload) : Bool :=
  decide (1 ≤ p.name.length)

/-- Reservation record, keyed by `car_id` (`struct Reservation`). -/
structure Reservation where
  car_id : Nat
  customer_id : Nat
  reservation_time : Nat
deriving Repr, DecidableEq

/-- The `enum Error` surfaced to callers. -/
inductive Error where
  | ValidationErrors (errors : String)
  | NotFound (msg : String)
  | NotAuthorized (msg : String)
  | AlreadyBooked (msg : String)
deriving Repr, DecidableEq

/-- Ambient environment of one canister call: `time()` and the textual
principal of `caller()`. -/
structure Ctx where
  time : Nat
  caller : String
deriving Repr, DecidableEq

/-- First-match lookup in an association-list map (`StableBTreeMap::get`). -/
def mapGet {α : Type} (m : List (Nat × α)) (k : Nat) : Option α :=
  match m with
  | [] => none
  | (k0, v) :: rest => if k0 = k then some v else mapGet rest k

/-- Replace-in-place insert (`StableBTreeMap::insert`): overwrites the
value at an existing key, otherwise appends the new entry. -/
def mapInsert {α : Type} (m : List (Nat × α)) (k : Nat) (v : α) : List (Nat × α) :=
  match m with
  | [] => [(k, v)]
  | (k0, v0) :: rest => if k0 = k then (k, v) :: rest else (k0, v0) :: mapInsert rest k v

/-- Key removal (`StableBTreeMap::remove`). -/
def mapRemove {α : Type} (m : List (Nat × α)) (k : Nat) : List (Nat × α) :=
  m.filter (fun kv => kv.1 != k)

/-- Whole persistent state of the canister: the two `IdCell` counters
and the three stable maps (`ID_COUNTER`, `CAR_STORAGE`,
`ID_CUSTOMER_COUNTER`, customer storage in memory region 2,
reservation storage in memory region 3). -/
structure CanisterState where
  idCounter : Nat
  carStorage : List (Nat × Car)
  customerCounter : Nat
  customerStorage : List (Nat × Customer)
  reservationStorage : List (Nat × Reservation)
deriving Repr, DecidableEq

/-- Freshly initialised canister: both counters at 0, all maps empty. -/
def initState : CanisterState :=
  { idCounter := 0, carStorage := [], customerCounter := 0,
    customerStorage := [], reservationStorage := [] }

/-- Helper `_get_car`. -/
def _get_car (id : Nat) (s : CanisterState) : Option Car :=
  mapGet s.carStorage id

/-- Helper `_get_customer`. -/
def _get_customer (id : Nat) (s : CanisterState) : Option Customer :=
  mapGet s.customerStorage id

/-- Helper `_get_reservation`. -/
def _get_reservation (car_id : Nat) (s : CanisterState) : Option Reservation :=
  mapGet s.reservationStorage car_id

/-- Helper `_check_if_owner`: compares the stored owner string with the
textual caller principal. -/
def _check_if_owner (ctx : Ctx) (car : Car) : Bool :=
  if car.owner != ctx.caller then false else true

/-- Helper `do_insert_car`. -/
def do_insert_car (car : Car) (s : CanisterState) : CanisterState :=
  { s with carStorage := mapInsert s.carStorage car.id car }

/-- Helper `do_insert_customer`. -/
def do_insert_customer (customer : Customer) (s : CanisterState) : CanisterState :=
  { s with customerStorage := mapInsert s.customerStorage customer.id customer }

/-- Helper `do_insert_reservation`. -/
def do_insert_reservation (r : Reservation) (s : CanisterState) : CanisterState :=
  { s with reservationStorage := mapInsert s.reservationStorage r.car_id r }

/-- Update method `add_car`: validate, assign the pre-increment value of
`ID_COUNTER` as id (storing `current_value + 1`, wrapping `u64`),
build the record with `created_at = time()`, `owner = caller()`,
`updated_at = None`, and persist it. -/
def add_car (ctx : Ctx) (car : CarPayload) (s : CanisterState) :
    Except Error Car × CanisterState :=
  if car.validate = false then
    (Except.error (Error.ValidationErrors "payload validation failed"), s)
  else
    let id := s.idCounter
    let s1 : CanisterState := { s with idCounter := (s.idCounter + 1) % 2 ^ 64 }
    let newCar : Car :=
      { id := id, make := car.make, model := car.model, year := car.year,
        color := car.color, created_at := ctx.time, updated_at := none,
        owner := ctx.caller, is_booked := car.is_booked }
    (Except.ok newCar, do_insert_car newCar s1)

/-- Update method `update_car`: validate the payload, look up the car,
check ownership, then overwrite the mutable fields and persist. -/
def update_car (ctx : Ctx) (id : Nat) (payload : CarPayload) (s : CanisterState) :
    Except Error Car × CanisterState :=
  if payload.validate = false then
    (Except.error (Error.ValidationErrors "payload validation failed"), s)
  else
    match mapGet s.carStorage id with
    | some car =>
      if ! _check_if_owner ctx car then
        (Except.error (Error.NotAuthorized
          s!"Unauthorized to update car with id={id}. car not found"), s)
      else
        let car2 : Car :=
          { car with make := payload.make, model := payload.model,
                     year := payload.year, color := payload.color,
                     updated_at := some ctx.time, is_booked := payload.is_booked }
        (Except.ok car2, do_insert_car car2 s)
    | none =>
      (Except.error (Error.NotFound
        s!"could not update a car with id={id}. car not found"), s)

/-- Update method `delete_car`: look up, check ownership, remove. -/
def delete_car (ctx : Ctx) (id : Nat) (s : CanisterState) :
    Except Error Car × CanisterState :=
  match mapGet s.carStorage id with
  | some car =>
    if ! _check_if_owner ctx car then
      (Except.error (Error.NotAuthorized
        s!"Unauthorized to delete car with id={id}. car not found"), s)
    else
      (Except.ok car, { s with carStorage := mapRemove s.carStorage id })
  | none =>
    (Except.error (Error.NotFound
      s!"could not delete a car with id={id}. car not found."), s)

/-- Update method `add_customer`: `assert!` on validation (modelled by
`none`, the trapping outcome, with no state change), then assign an id
from `ID_CUSTOMER_COUNTER` (pre-increment value, wrapping `u64`) and
persist. -/
def add_customer (ctx : Ctx) (payload : CustomerPayload) (s : CanisterState) :
    Option (Customer × CanisterState) :=
  if payload.validate = false then
    none
  else
    let id := s.customerCounter
    let s1 : CanisterState := { s with customerCounter := (s.customerCounter + 1) % 2 ^ 64 }
    let customer : Customer := { id := id, name := payload.name, contact := payload.contact }
    some (customer, do_insert_customer customer s1)

/-- Update method `delete_customer`: look up the customer, remove it if
present.  The body never consults `ctx` — the source never calls
`caller()` here, so there is no authorization check. -/
def delete_customer (ctx : Ctx) (id : Nat) (s : CanisterState) :
    Except Error Customer × CanisterState :=
  match _get_customer id s with
  | some customer =>
    (Except.ok customer, { s with customerStorage := mapRemove s.customerStorage id })
  | none =>
    (Except.error (Error.NotFound s!"a customer with id={id} not found"), s)

/-- Update method `make_reservation`: both the car and the customer must
exist, the car must not have `is_booked` set; then a reservation keyed
by `car_id` is inserted.  The car record itself is never written. -/
def make_reservation (ctx : Ctx) (car_id : Nat) (customer_id : Nat) (s : CanisterState) :
    Except Error Reservation × CanisterState :=
  match _get_car car_id s, _get_customer customer_id s with
  | some car, some _ =>
    if car.is_booked then
      (Except.error (Error.AlreadyBooked
        s!"Car with id={car_id} is already booked."), s)
    else
      let r : Reservation :=
        { car_id := car_id, customer_id := customer_id, reservation_time := ctx.time }
      (Except.ok r, do_insert_reservation r s)
  | _, _ =>
    (Except.error (Error.NotFound "Car or customer not found for reservation"), s)

/-- Query method `get_reservation`. -/
def get_reservation (car_id : Nat) (s : CanisterState) : Except Error Reservation :=
  match _get_reservation car_id s with
  | some r => Except.ok r
  | none => Except.error (Error.NotFound s!"a reservation for car_id={car_id} not found")

/-- Update method `cancel_reservation`: remove the stored reservation if
any; the car record (in particular `is_booked`) is never written. -/
def cancel_reservation (ctx : Ctx) (car_id : Nat) (s : CanisterState) :
    Except Error Unit × CanisterState :=
  match _get_reservation car_id s with
  | some _ =>
    (Except.ok (), { s with reservationStorage := mapRemove s.reservationStorage car_id })
  | none =>
    (Except.error (Error.NotFound s!"a reservation for car_id={car_id} not found"), s)

/-- Query method `get_car`. -/
def get_car (id : Nat) (s : CanisterState) : Except Error Car :=
  match _get_car id s with
  | some car => Except.ok car
  | none => Except.error (Error.NotFound s!"a car with id={id} not found")

/-- One state-mutating call to the canister (queries never change the
state, so they are omitted from traces). -/
inductive Op where
  | opAddCar (ctx : Ctx) (p : CarPayload)
  | opUpdateCar (ctx : Ctx) (id : Nat) (p : CarPayload)
  | opDeleteCar (ctx : Ctx) (id : Nat)
  | opAddCustomer (ctx : Ctx) (p : CustomerPayload)
  | opDeleteCustomer (ctx : Ctx) (id : Nat)
  | opMakeReservation (ctx : Ctx) (car_id : Nat) (customer_id : Nat)
  | opCancelReservation (ctx : Ctx) (car_id : Nat)
deriving Repr, DecidableEq

/-- Post-state of one call.  A trapping `add_customer` leaves the state
unchanged (a trap rolls the call back). -/
def applyOp (s : CanisterState) (op : Op) : CanisterState :=
  match op with
  | Op.opAddCar ctx p => (add_car ctx p s).2
  | Op.opUpdateCar ctx id p => (update_car ctx id p s).2
  | Op.opDeleteCar ctx id => (delete_car ctx id s).2
  | Op.opAddCustomer ctx p =>
    match add_customer ctx p s with
    | some (_, s2) => s2
    | none => s
  | Op.opDeleteCustomer ctx id => (delete_customer ctx id s).2
  | Op.opMakeReservation ctx car_id customer_id => (make_reservation ctx car_id customer_id s).2
  | Op.opCancelReservation ctx car_id => (cancel_reservation ctx car_id s).2

/-- Run a trace of calls from a state. -/
def run (s : CanisterState) : List Op → CanisterState
  | [] => s
  | op :: rest => run (applyOp s op) rest

/-- The ids returned by the successful `add_car` calls of a trace, in
call order. -/
def addedIds (s : CanisterState) : List Op → List Nat
  | [] => []
  | op :: rest =>
    match op with
    | Op.opAddCar ctx p =>
      match (add_car ctx p s).1 with
      | Except.ok car => car.id :: addedIds (applyOp s op) rest
      | Except.error _ => addedIds (applyOp s op) rest
    | _ => addedIds (applyOp s op) rest

/-! Basic lemmas about the association-list maps. -/

theorem mapGet_mapInsert_self {α : Type} (m : List (Nat × α)) (k : Nat) (v : α) :
    mapGet (mapInsert m k v) k = some v := by
  induction m with
  | nil => simp [mapInsert, mapGet]
  | cons hd tl ih =>
    obtain ⟨k0, v0⟩ := hd
    by_cases h : k0 = k <;> simp [mapInsert, mapGet, h, ih]

theorem mapGet_mapRemove_self {α : Type} (m : List (Nat × α)) (k : Nat) :
    mapGet (mapRemove m k) k = none := by
  induction m with
  | nil => simp [mapRemove, mapGet]
  | cons hd tl ih =>
    obtain ⟨k0, v0⟩ := hd
    by_cases h : k0 = k <;>
      simp_all [mapRemove, mapGet, List.filter_cons, h]

theorem mem_of_mem_mapRemove {α : Type} {m : List (Nat × α)} {k : Nat}
    {e : Nat × α} (h : e ∈ mapRemove m k) : e ∈ m :=
  List.mem_of_mem_filter h

theorem mem_mapInsert {α : Type} {m : List (Nat × α)} {k : Nat} {v : α}
    {e : Nat × α} (h : e ∈ mapInsert m k v) : e ∈ m ∨ e = (k, v) := by
  induction m with
  | nil => simp [mapInsert] at h; simp [h]
  | cons hd tl ih =>
    obtain ⟨k0, v0⟩ := hd
    by_cases hk : k0 = k
    · simp [mapInsert, hk] at h
      rcases h with h | h
      · right; simp [h]
      · left; simp [h]
    · simp [mapInsert, hk] at h
      rcases h with h | h
      · left; simp [h]
      · rcases ih h with h2 | h2
        · left; simp [h2]
        · right; exact h2

theorem mem_of_mapGet_eq_some {α : Type} {m : List (Nat × α)} {k : Nat} {v : α}
    (h : mapGet m k = some v) : (k, v) ∈ m := by
  induction m with
  | nil => simp [mapGet] at h
  | cons hd tl ih =>
    obtain ⟨k0, v0⟩ := hd
    by_cases hk : k0 = k
    · simp [mapGet, hk] at h
      simp [hk, h]
    · simp [mapGet, hk] at h
      simp [ih h]

theorem mapGet_eq_none_of_lt {α : Type} {m : List (Nat × α)} {c : Nat}
    (h : ∀ k v, (k, v) ∈ m → k < c) : mapGet m c = none := by
  cases hg : mapGet m c with
  | none => rfl
  | some v => exact absurd (h c v (mem_of_mapGet_eq_some hg)) (lt_irrefl c)

/-! Characterization and frame lemmas for the individual calls. -/

theorem add_car_invalid (ctx : Ctx) (p : CarPayload) (s : CanisterState)
    (h : p.validate = false) :
    add_car ctx p s = (Except.error (Error.ValidationErrors "payload validation failed"), s) := by
  simp [add_car, h]

theorem add_car_valid (ctx : Ctx) (p : CarPayload) (s : CanisterState)
    (h : p.validate = true) :
    add_car ctx p s =
      (Except.ok
        { id := s.idCounter, make := p.make, model := p.model, year := p.year,
          color := p.color, created_at := ctx.time, updated_at := none,
          owner := ctx.caller, is_booked := p.is_booked },
       { s with idCounter := (s.idCounter + 1) % 2 ^ 64,
                carStorage := mapInsert s.carStorage s.idCounter
                  { id := s.idCounter, make := p.make, model := p.model, year := p.year,
                    color := p.color, created_at := ctx.time, updated_at := none,
                    owner := ctx.caller, is_booked := p.is_booked } }) := by
  simp [add_car, h, do_insert_car]

theorem update_car_frame (ctx : Ctx) (id : Nat) (p : CarPayload) (s : CanisterState) :
    (update_car ctx id p s).2.idCounter = s.idCounter ∧
    (update_car ctx id p s).2.customerCounter = s.customerCounter ∧
    (update_car ctx id p s).2.customerStorage = s.customerStorage ∧
    (update_car ctx id p s).2.reservationStorage = s.reservationStorage := by
  unfold update_car
  split
  · simp
  · split
    · split <;> simp [do_insert_car]
    · simp

theorem delete_car_frame (ctx : Ctx) (id : Nat) (s : CanisterState) :
    (delete_car ctx id s).2.idCounter = s.idCounter ∧
    (delete_car ctx id s).2.customerCounter = s.customerCounter ∧
    (delete_car ctx id s).2.customerStorage = s.customerStorage ∧
    (delete_car ctx id s).2.reservationStorage = s.reservationStorage := by
  unfold delete_car
  split
  · split <;> simp
  · simp

theorem add_customer_frame (ctx : Ctx) (p : CustomerPayload) (s : CanisterState)
    (c : Customer) (s2 : CanisterState) (h : add_customer ctx p s = some (c, s2)) :
    s2.idCounter = s.idCounter ∧
    s2.carStorage = s.carStorage ∧
    s2.reservationStorage = s.reservationStorage := by
  unfold add_customer at h
  split at h
  · exact absurd h (by simp)
  · simp [do_insert_customer] at h
    simp [← h.2]

theorem delete_customer_frame (ctx : Ctx) (id : Nat) (s : CanisterState) :
    (delete_customer ctx id s).2.idCounter = s.idCounter ∧
    (delete_customer ctx id s).2.carStorage = s.carStorage ∧
    (delete_customer ctx id s).2.customerCounter = s.customerCounter ∧
    (delete_customer ctx id s).2.reservationStorage = s.reservationStorage := by
  unfold delete_customer
  split <;> simp

theorem make_reservation_frame (ctx : Ctx) (car_id customer_id : Nat) (s : CanisterState) :
    (make_reservation ctx car_id customer_id s).2.idCounter = s.idCounter ∧
    (make_reservation ctx car_id customer_id s).2.carStorage = s.carStorage ∧
    (make_reservation ctx car_id customer_id s).2.customerCounter = s.customerCounter ∧
    (make_reservation ctx car_id customer_id s).2.customerStorage = s.customerStorage := by
  unfold make_reservation
  split
  · split <;> simp [do_insert_reservation]
  · simp

theorem cancel_reservation_frame (ctx : Ctx) (car_id : Nat) (s : CanisterState) :
    (cancel_reservation ctx car_id s).2.idCounter = s.idCounter ∧
    (cancel_reservation ctx car_id s).2.carStorage = s.carStorage ∧
    (cancel_reservation ctx car_id s).2.customerCounter = s.customerCounter ∧
    (cancel_reservation ctx car_id s).2.customerStorage = s.customerStorage := by
  unfold cancel_reservation
  split <;> simp

theorem applyOp_idCounter_le (s : CanisterState) (op : Op) :
    (applyOp s op).idCounter ≤ s.idCounter + 1 := by
  cases op with
  | opAddCar ctx p =>
    by_cases h : p.validate
    · simp [applyOp, add_car_valid ctx p s h]
      exact le_trans (Nat.mod_le _ _) (le_refl _)
    · simp [applyOp, add_car_invalid ctx p s (by simpa using h)]
  | opUpdateCar ctx id p =>
    simp [applyOp, (update_car_frame ctx id p s).1]
  | opDeleteCar ctx id =>
    simp [applyOp, (delete_car_frame ctx id s).1]
  | opAddCustomer ctx p =>
    simp only [applyOp]
    split
    · rename_i c s2 h
      simp [(add_customer_frame ctx p s c s2 h).1]
    · simp
  | opDeleteCustomer ctx id =>
    simp [applyOp, (delete_customer_frame ctx id s).1]
  | opMakeReservation ctx car_id customer_id =>
    simp [applyOp, (make_reservation_frame ctx car_id customer_id s).1]
  | opCancelReservation ctx car_id =>
    simp [applyOp, (cancel_reservation_frame ctx car_id s).1]

theorem addedIds_skip (s : CanisterState) (op : Op) (rest : List Op)
    (hop : ∀ ctx p, op ≠ Op.opAddCar ctx p) :
    addedIds s (op :: rest) = addedIds (applyOp s op) rest := by
  cases op with
  | opAddCar ctx p => exact absurd rfl (hop ctx p)
  | opUpdateCar ctx id p => rfl
  | opDeleteCar ctx id => rfl
  | opAddCustomer ctx p => rfl
  | opDeleteCustomer ctx id => rfl
  | opMakeReservation ctx a b => rfl
  | opCancelReservation ctx a => rfl

theorem applyOp_nonadd_idCounter (s : CanisterState) (op : Op)
    (hop : ∀ ctx p, op ≠ Op.opAddCar ctx p) :
    (applyOp s op).idCounter = s.idCounter := by
  cases op with
  | opAddCar ctx p => exact absurd rfl (hop ctx p)
  | opUpdateCar ctx id p => exact (update_car_frame ctx id p s).1
  | opDeleteCar ctx id => exact (delete_car_frame ctx id s).1
  | opAddCustomer ctx p =>
    simp only [applyOp]
    split
    · rename_i c s2 hsome
      exact (add_customer_frame ctx p s c s2 hsome).1
    · rfl
  | opDeleteCustomer ctx id => exact (delete_customer_frame ctx id s).1
  | opMakeReservation ctx a b => exact (make_reservation_frame ctx a b s).1
  | opCancelReservation ctx a => exact (cancel_reservation_frame ctx a s).1

theorem addedIds_eq_range' (ops : List Op) : ∀ s : CanisterState,
    s.idCounter + ops.length < 2 ^ 64 →
    addedIds s ops = List.range' s.idCounter (addedIds s ops).length := by
  induction ops with
  | nil => intro s _; simp [addedIds]
  | cons op rest ih =>
    intro s h
    simp only [List.length_cons] at h
    by_cases haddc : ∃ ctx p, op = Op.opAddCar ctx p
    · obtain ⟨ctx, p, rfl⟩ := haddc
      by_cases hv : p.validate = true
      · have hmod : (s.idCounter + 1) % 2 ^ 64 = s.idCounter + 1 :=
          Nat.mod_eq_of_lt (by omega)
        have hres := add_car_valid ctx p s hv
        have ihs := ih (applyOp s (Op.opAddCar ctx p))
          (by simp only [applyOp, hres]; omega)
        simp only [addedIds, applyOp, hres] at ihs ⊢
        rw [List.length_cons, List.range'_succ]
        rw [hmod] at ihs ⊢
        exact congrArg _ ihs
      · have hres := add_car_invalid ctx p s (by simpa using hv)
        have ihs := ih (applyOp s (Op.opAddCar ctx p))
          (by simp [applyOp, hres]; omega)
        simp only [addedIds, applyOp, hres] at ihs ⊢
        exact ihs
    · rw [addedIds_skip s op rest (by intro ctx p hc; exact haddc ⟨ctx, p, hc⟩)]
      have h2 := applyOp_nonadd_idCounter s op (by intro ctx p hc; exact haddc ⟨ctx, p, hc⟩)
      rw [← h2]
      exact ih _ (by rw [h2]; omega)

theorem update_car_carStorage (ctx : Ctx) (id : Nat) (p : CarPayload) (s : CanisterState) :
    (update_car ctx id p s).2.carStorage = s.carStorage ∨
      ∃ car : Car, mapGet s.carStorage id = some car ∧
        ∃ car2 : Car, car2.id = car.id ∧
          (update_car ctx id p s).2.carStorage = mapInsert s.carStorage car.id car2 := by
  unfold update_car
  split
  · left; rfl
  · split
    · split
      · left; rfl
      · rename_i car heq _
        right
        refine ⟨car, heq,
          { car with make := p.make, model := p.model, year := p.year,
                     color := p.color, updated_at := some ctx.time,
                     is_booked := p.is_booked }, rfl, ?_⟩
        simp [do_insert_car]
    · left; rfl

theorem delete_car_carStorage (ctx : Ctx) (id : Nat) (s : CanisterState) :
    (delete_car ctx id s).2.carStorage = s.carStorage ∨
      (delete_car ctx id s).2.carStorage = mapRemove s.carStorage id := by
  unfold delete_car
  split
  · split
    · left; rfl
    · right; rfl
  · left; rfl

theorem applyOp_carStorage_nonvehicle (s : CanisterState) (op : Op)
    (hop : ∀ ctx p, op ≠ Op.opAddCar ctx p)
    (hop2 : ∀ ctx id p, op ≠ Op.opUpdateCar ctx id p)
    (hop3 : ∀ ctx id, op ≠ Op.opDeleteCar ctx id) :
    (applyOp s op).carStorage = s.carStorage := by
  cases op with
  | opAddCar ctx p => exact absurd rfl (hop ctx p)
  | opUpdateCar ctx id p => exact absurd rfl (hop2 ctx id p)
  | opDeleteCar ctx id => exact absurd rfl (hop3 ctx id)
  | opAddCustomer ctx p =>
    simp only [applyOp]
    split
    · rename_i c s2 hsome
      exact (add_customer_frame ctx p s c s2 hsome).2.1
    · rfl
  | opDeleteCustomer ctx id => exact (delete_customer_frame ctx id s).2.1
  | opMakeReservation ctx a b => exact (make_reservation_frame ctx a b s).2.1
  | opCancelReservation ctx a => exact (cancel_reservation_frame ctx a s).2.1

theorem carInvS_applyOp (s : CanisterState) (op : Op)
    (hinv : ∀ k v, (k, v) ∈ s.carStorage → k < s.idCounter ∧ v.id = k)
    (hc : s.idCounter + 1 < 2 ^ 64) :
    ∀ k v, (k, v) ∈ (applyOp s op).carStorage →
      k < (applyOp s op).idCounter ∧ v.id = k := by
  cases op with
  | opAddCar ctx p =>
    by_cases hv : p.validate = true
    · have hres := add_car_valid ctx p s hv
      intro k v hm
      simp only [applyOp, hres] at hm ⊢
      rw [Nat.mod_eq_of_lt hc]
      rcases mem_mapInsert hm with h1 | h1
      · exact ⟨lt_trans (hinv k v h1).1 (Nat.lt_succ_self _), (hinv k v h1).2⟩
      · simp only [Prod.mk.injEq] at h1
        refine ⟨?_, ?_⟩
        · rw [h1.1]; exact Nat.lt_succ_self _
        · rw [h1.2, h1.1]
    · have hres := add_car_invalid ctx p s (by simpa using hv)
      intro k v hm
      simp only [applyOp, hres] at hm ⊢
      exact hinv k v hm
  | opUpdateCar ctx id p =>
    intro k v hm
    simp only [applyOp] at hm ⊢
    rw [(update_car_frame ctx id p s).1]
    rcases update_car_carStorage ctx id p s with hcs | ⟨car, hget, car2, hid, hcs⟩
    · rw [hcs] at hm
      exact hinv k v hm
    · rw [hcs] at hm
      rcases mem_mapInsert hm with h1 | h1
      · exact hinv k v h1
      · simp only [Prod.mk.injEq] at h1
        have hmem := mem_of_mapGet_eq_some hget
        have hkey := hinv id car hmem
        refine ⟨?_, ?_⟩
        · rw [h1.1, hkey.2]; exact hkey.1
        · rw [h1.2, hid, hkey.2, h1.1, hkey.2]
  | opDeleteCar ctx id =>
    intro k v hm
    simp only [applyOp] at hm ⊢
    rw [(delete_car_frame ctx id s).1]
    rcases delete_car_carStorage ctx id s with hcs | hcs
    · rw [hcs] at hm; exact hinv k v hm
    · rw [hcs] at hm; exact hinv k v (mem_of_mem_mapRemove hm)
  | opAddCustomer ctx p =>
    intro k v hm
    rw [applyOp_carStorage_nonvehicle s _ (by simp) (by simp) (by simp)] at hm
    rw [applyOp_nonadd_idCounter s _ (by simp)]
    exact hinv k v hm
  | opDeleteCustomer ctx id =>
    intro k v hm
    rw [applyOp_carStorage_nonvehicle s _ (by simp) (by simp) (by simp)] at hm
    rw [applyOp_nonadd_idCounter s _ (by simp)]
    exact hinv k v hm
  | opMakeReservation ctx a b =>
    intro k v hm
    rw [applyOp_carStorage_nonvehicle s _ (by simp) (by simp) (by simp)] at hm
    rw [applyOp_nonadd_idCounter s _ (by simp)]
    exact hinv k v hm
  | opCancelReservation ctx a =>
    intro k v hm
    rw [applyOp_carStorage_nonvehicle s _ (by simp) (by simp) (by simp)] at hm
    rw [applyOp_nonadd_idCounter s _ (by simp)]
    exact hinv k v hm

theorem carInvS_run (ops : List Op) : ∀ s : CanisterState,
    (∀ k v, (k, v) ∈ s.carStorage → k < s.idCounter ∧ v.id = k) →
    s.idCounter + ops.length < 2 ^ 64 →
    ∀ k v, (k, v) ∈ (run s ops).carStorage →
      k < (run s ops).idCounter ∧ v.id = k := by
  induction ops with
  | nil => intro s hinv _; exact hinv
  | cons op rest ih =>
    intro s hinv h
    simp only [List.length_cons] at h
    simp only [run]
    refine ih (applyOp s op) (carInvS_applyOp s op hinv (by omega)) ?_
    have := applyOp_idCounter_le s op
    omega

/-! Concrete fixtures used by witnesses. -/

/-- Fixture: a caller who is not the owner of the stored car. -/
def wCtx : Ctx := { time := 5, caller := "alice" }

/-- Fixture: the caller who created (owns) the stored car. -/
def wCtxOwner : Ctx := { time := 7, caller := "owner-principal" }

/-- Fixture: a payload passing every validation rule. -/
def wPayload : CarPayload :=
  { make := "Toyota", model := "Corolla", year := 2020, color := "red", is_booked := false }

/-- Fixture: a payload with `year = 1800`, outside the valid range. -/
def wBadPayload : CarPayload :=
  { make := "Toyota", model := "Corolla", year := 1800, color := "red", is_booked := false }

/-- Fixture: a stored car owned by `owner-principal`, not booked. -/
def wCar : Car :=
  { id := 0, make := "Toyota", model := "Corolla", year := 2020, color := "red",
    created_at := 1, updated_at := none, owner := "owner-principal", is_booked := false }

/-- Fixture: the same car with `is_booked` set. -/
def wBookedCar : Car := { wCar with is_booked := true }

/-- Fixture: a stored customer. -/
def wCustomer : Customer := { id := 0, name := "Alice", contact := "a@x.com" }

/-- Fixture: state holding one car (id 0) and one customer (id 0). -/
def wState : CanisterState :=
  { idCounter := 1, carStorage := [(0, wCar)], customerCounter := 1,
    customerStorage := [(0, wCustomer)], reservationStorage := [] }

/-- Fixture: like `wState` but the car is booked. -/
def wBookedState : CanisterState := { wState with carStorage := [(0, wBookedCar)] }

/-- Fixture: state holding a booked car and NO customers. -/
def c4State : CanisterState :=
  { idCounter := 1, carStorage := [(0, wBookedCar)], customerCounter := 0,
    customerStorage := [], reservationStorage := [] }

/-- Fixture trace: valid add, invalid add, delete by owner, valid add. -/
def w2ops : List Op :=
  [Op.opAddCar wCtx wPayload,
   Op.opAddCar wCtx wBadPayload,
   Op.opDeleteCar wCtx 0,
   Op.opAddCar wCtx wPayload]

/-! The claims. -/

/-- C1: whenever the payload fails validation, `add_car` returns
`ValidationErrors` and leaves the whole state (in particular the id
counter) unchanged, so a later successful `add_car` gets the id it
would have gotten anyway; `update_car` likewise returns
`ValidationErrors` with the state unchanged, before any lookup. -/
theorem validation_failed_no_state_change :
    ∀ (ctx : Ctx) (id : Nat) (p : CarPayload) (s : CanisterState),
      p.validate = false →
      (∃ e, add_car ctx p s = (Except.error (Error.ValidationErrors e), s)) ∧
      (∃ e, update_car ctx id p s = (Except.error (Error.ValidationErrors e), s)) := by
  intro ctx id p s h
  exact ⟨⟨_, add_car_invalid ctx p s h⟩, ⟨"payload validation failed", by simp [update_car, h]⟩⟩

/-- Witness for C1 at the `year = 1800` payload. -/
theorem validation_failed_no_state_change_witness :
    wBadPayload.validate = false ∧
    ((∃ e, add_car wCtx wBadPayload wState = (Except.error (Error.ValidationErrors e), wState)) ∧
     (∃ e, update_car wCtx 0 wBadPayload wState = (Except.error (Error.ValidationErrors e), wState))) :=
  ⟨by decide, validation_failed_no_state_change wCtx 0 wBadPayload wState (by decide)⟩

/-- C2: along any trace from the initial state (adds interleaved with
any other operations), the ids returned by the successful `add_car`
calls are exactly 0, 1, 2, … in order — strictly increasing and
consecutive, with no reuse after deletes; moreover each successful
`add_car` returns the pre-increment counter value and stores
`counter + 1` (wrapping `u64`).  The length bound only rules out
traces long enough to wrap the 64-bit counter. -/
theorem add_car_ids_consecutive :
    (∀ ops : List Op, ops.length < 2 ^ 64 →
      addedIds initState ops = List.range (addedIds initState ops).length) ∧
    (∀ (ctx : Ctx) (p : CarPayload) (s : CanisterState), p.validate = true →
      (∃ car, (add_car ctx p s).1 = Except.ok car ∧ car.id = s.idCounter) ∧
      (add_car ctx p s).2.idCounter = (s.idCounter + 1) % 2 ^ 64) := by
  constructor
  · intro ops h
    have hr := addedIds_eq_range' ops initState (by simpa [initState] using h)
    rw [List.range_eq_range']
    simpa [initState] using hr
  · intro ctx p s h
    have hres := add_car_valid ctx p s h
    refine ⟨⟨_, by rw [hres], rfl⟩, by rw [hres]⟩

/-- Witness for C2 on the fixture trace (ids returned: 0 then 1). -/
theorem add_car_ids_consecutive_witness :
    w2ops.length < 2 ^ 64 ∧
    addedIds initState w2ops = List.range (addedIds initState w2ops).length ∧
    wPayload.validate = true ∧
    ((∃ car, (add_car wCtx wPayload initState).1 = Except.ok car ∧ car.id = initState.idCounter) ∧
      (add_car wCtx wPayload initState).2.idCounter = (initState.idCounter + 1) % 2 ^ 64) :=
  ⟨by decide, add_car_ids_consecutive.1 w2ops (by decide), by decide,
   add_car_ids_consecutive.2 wCtx wPayload initState (by decide)⟩

/-- C3: on a stored car, any caller other than the stored owner gets
`NotAuthorized` from `update_car` (once the payload passes validation,
which the source checks first) and from `delete_car`, with the whole
state unchanged. -/
theorem not_owner_not_authorized :
    ∀ (ctx : Ctx) (id : Nat) (p : CarPayload) (s : CanisterState) (car : Car),
      mapGet s.carStorage id = some car →
      ctx.caller ≠ car.owner →
      (p.validate = true →
        ∃ m, update_car ctx id p s = (Except.error (Error.NotAuthorized m), s)) ∧
      (∃ m, delete_car ctx id s = (Except.error (Error.NotAuthorized m), s)) := by
  intro ctx id p s car hget hne
  have hown : _check_if_owner ctx car = false := by
    have hno : ¬ car.owner = ctx.caller := fun hc => hne hc.symm
    simp [_check_if_owner, hno]
  constructor
  · intro hv
    refine ⟨s!"Unauthorized to update car with id={id}. car not found", ?_⟩
    simp [update_car, hv, hget, hown]
  · refine ⟨s!"Unauthorized to delete car with id={id}. car not found", ?_⟩
    simp [delete_car, hget, hown]

/-- Witness for C3: caller `alice` on the car owned by
`owner-principal`. -/
theorem not_owner_not_authorized_witness :
    mapGet wState.carStorage 0 = some wCar ∧
    wCtx.caller ≠ wCar.owner ∧
    ((wPayload.validate = true →
       ∃ m, update_car wCtx 0 wPayload wState = (Except.error (Error.NotAuthorized m), wState)) ∧
     (∃ m, delete_car wCtx 0 wState = (Except.error (Error.NotAuthorized m), wState))) :=
  ⟨rfl, by decide, not_owner_not_authorized wCtx 0 wPayload wState wCar rfl (by decide)⟩

/-- C4 counterexample: the claim says a booked car makes
`make_reservation` return `AlreadyBooked` for EVERY `customer_id`, but
when the customer id is not stored the customer lookup fails first and
the call returns `NotFound`.  Here car 0 is stored with
`is_booked = true`, no customer is stored, and
`make_reservation 0 0` returns `NotFound`, not `AlreadyBooked`. -/
theorem make_reservation_booked_cex :
    (∃ car, mapGet c4State.carStorage 0 = some car ∧ car.is_booked = true) ∧
    (make_reservation wCtx 0 0 c4State).1 =
      Except.error (Error.NotFound "Car or customer not found for reservation") ∧
    ¬ ∃ m, (make_reservation wCtx 0 0 c4State).1 = Except.error (Error.AlreadyBooked m) := by
  refine ⟨⟨wBookedCar, rfl, rfl⟩, rfl, ?_⟩
  rintro ⟨m, hm⟩
  rw [show (make_reservation wCtx 0 0 c4State).1 =
      Except.error (Error.NotFound "Car or customer not found for reservation") from rfl] at hm
  simp at hm

/-- C4 amended: for a stored car with `is_booked = true` and a STORED
customer, `make_reservation` always returns `AlreadyBooked` and leaves
the state unchanged (no reservation written). -/
theorem make_reservation_already_booked :
    ∀ (ctx : Ctx) (car_id customer_id : Nat) (s : CanisterState) (car : Car) (cu : Customer),
      mapGet s.carStorage car_id = some car →
      car.is_booked = true →
      mapGet s.customerStorage customer_id = some cu →
      ∃ m, make_reservation ctx car_id customer_id s =
        (Except.error (Error.AlreadyBooked m), s) := by
  intro ctx car_id customer_id s car cu hcar hb hcu
  refine ⟨s!"Car with id={car_id} is already booked.", ?_⟩
  simp [make_reservation, _get_car, _get_customer, hcar, hcu, hb]

/-- Witness for the amended C4 on the booked-car fixture. -/
theorem make_reservation_already_booked_witness :
    mapGet wBookedState.carStorage 0 = some wBookedCar ∧
    wBookedCar.is_booked = true ∧
    mapGet wBookedState.customerStorage 0 = some wCustomer ∧
    (∃ m, make_reservation wCtx 0 0 wBookedState =
      (Except.error (Error.AlreadyBooked m), wBookedState)) :=
  ⟨rfl, rfl, rfl,
   make_reservation_already_booked wCtx 0 0 wBookedState wBookedCar wCustomer rfl rfl rfl⟩

/-- C5: neither `make_reservation` nor `cancel_reservation` ever writes
the car storage, whatever their outcome — so no reservation operation
sets or clears any stored `is_booked` flag. -/
theorem reservation_ops_preserve_car_storage :
    ∀ (ctx : Ctx) (car_id customer_id : Nat) (s : CanisterState),
      (make_reservation ctx car_id customer_id s).2.carStorage = s.carStorage ∧
      (cancel_reservation ctx car_id s).2.carStorage = s.carStorage := by
  intro ctx car_id customer_id s
  exact ⟨(make_reservation_frame ctx car_id customer_id s).2.1,
         (cancel_reservation_frame ctx car_id s).2.1⟩

/-- C6: a successful `update_car` by the owner on a stored car, with a
valid payload, returns and persists exactly the stored record with
`make`, `model`, `year`, `color`, `is_booked` overwritten from the
payload and `updated_at = some (now)`, leaving `id`, `created_at` and
`owner` at their previous stored values, and touching no other state. -/
theorem update_car_success_fields :
    ∀ (ctx : Ctx) (id : Nat) (p : CarPayload) (s : CanisterState) (car : Car),
      mapGet s.carStorage id = some car →
      p.validate = true →
      ctx.caller = car.owner →
      update_car ctx id p s =
        (Except.ok
          { car with make := p.make, model := p.model, year := p.year,
                     color := p.color, updated_at := some ctx.time,
                     is_booked := p.is_booked },
         { s with
            carStorage := mapInsert s.carStorage car.id
              ({ car with make := p.make, model := p.model, year := p.year,
                          color := p.color, updated_at := some ctx.time,
                          is_booked := p.is_booked }) }) := by
  intro ctx id p s car hget hv hown
  have ho : _check_if_owner ctx car = true := by
    simp [_check_if_owner, hown]
  simp [update_car, hv, hget, ho, do_insert_car]

/-- Witness for C6: the owner updates car 0 with the valid payload. -/
theorem update_car_success_fields_witness :
    mapGet wState.carStorage 0 = some wCar ∧
    wPayload.validate = true ∧
    wCtxOwner.caller = wCar.owner ∧
    update_car wCtxOwner 0 wPayload wState =
      (Except.ok
        { wCar with make := wPayload.make, model := wPayload.model, year := wPayload.year,
                    color := wPayload.color, updated_at := some wCtxOwner.time,
                    is_booked := wPayload.is_booked },
       { wState with
          carStorage := mapInsert wState.carStorage wCar.id
            ({ wCar with make := wPayload.make, model := wPayload.model, year := wPayload.year,
                         color := wPayload.color, updated_at := some wCtxOwner.time,
                         is_booked := wPayload.is_booked }) }) :=
  ⟨rfl, rfl, rfl, update_car_success_fields wCtxOwner 0 wPayload wState wCar rfl rfl rfl⟩

/-- C7: after a successful `make_reservation` returning `r`,
`get_reservation` on the new state returns exactly `r`; after a
successful `cancel_reservation`, `get_reservation` returns `NotFound`;
and `get_reservation` returns `NotFound` whenever no reservation is
stored for the car id. -/
theorem reservation_get_roundtrip :
    (∀ (ctx : Ctx) (car_id customer_id : Nat) (s : CanisterState)
        (r : Reservation) (s2 : CanisterState),
       make_reservation ctx car_id customer_id s = (Except.ok r, s2) →
       get_reservation car_id s2 = Except.ok r) ∧
    (∀ (ctx : Ctx) (car_id : Nat) (s s2 : CanisterState) (u : Unit),
       cancel_reservation ctx car_id s = (Except.ok u, s2) →
       ∃ m, get_reservation car_id s2 = Except.error (Error.NotFound m)) ∧
    (∀ (car_id : Nat) (s : CanisterState),
       mapGet s.reservationStorage car_id = none →
       ∃ m, get_reservation car_id s = Except.error (Error.NotFound m)) := by
  refine ⟨?_, ?_, ?_⟩
  · intro ctx car_id customer_id s r s2 h
    unfold make_reservation at h
    split at h
    · split at h
      · simp at h
      · simp only [Prod.mk.injEq, Except.ok.injEq] at h
        obtain ⟨hr, hs2⟩ := h
        subst hr
        subst hs2
        simp [get_reservation, _get_reservation, do_insert_reservation, mapGet_mapInsert_self]
    · simp at h
  · intro ctx car_id s s2 u h
    unfold cancel_reservation at h
    split at h
    · simp only [Prod.mk.injEq] at h
      obtain ⟨_, hs2⟩ := h
      subst hs2
      refine ⟨s!"a reservation for car_id={car_id} not found", ?_⟩
      simp [get_reservation, _get_reservation, mapGet_mapRemove_self]
    · simp at h
  · intro car_id s h
    refine ⟨s!"a reservation for car_id={car_id} not found", ?_⟩
    simp [get_reservation, _get_reservation, h]

/-- Fixture: the reservation created by `make_reservation wCtx 0 0 wState`. -/
def w7r : Reservation := { car_id := 0, customer_id := 0, reservation_time := 5 }

/-- Fixture: `wState` with that reservation stored. -/
def w7s2 : CanisterState := { wState with reservationStorage := [(0, w7r)] }

/-- Witness for C7: make, read, cancel, read again on the fixture. -/
theorem reservation_get_roundtrip_witness :
    make_reservation wCtx 0 0 wState = (Except.ok w7r, w7s2) ∧
    get_reservation 0 w7s2 = Except.ok w7r ∧
    cancel_reservation wCtx 0 w7s2 = (Except.ok (), wState) ∧
    (∃ m, get_reservation 0 wState = Except.error (Error.NotFound m)) ∧
    mapGet wState.reservationStorage 0 = none ∧
    (∃ m, get_reservation 5 wState = Except.error (Error.NotFound m)) :=
  ⟨rfl, reservation_get_roundtrip.1 wCtx 0 0 wState w7r w7s2 rfl,
   rfl, reservation_get_roundtrip.2.1 wCtx 0 w7s2 wState () rfl,
   rfl, reservation_get_roundtrip.2.2 5 wState rfl⟩

/-- C8: `add_customer` with an invalid payload hits the `assert!` and
aborts the call (modelled by `none`, hence no state change and no
recoverable error value); with a valid payload it assigns the
pre-increment value of the customer counter — independent of the
vehicle counter, which the resulting state leaves untouched — persists
the record, and returns it. -/
theorem add_customer_trap_or_insert :
    (∀ (ctx : Ctx) (p : CustomerPayload) (s : CanisterState),
       p.validate = false → add_customer ctx p s = none) ∧
    (∀ (ctx : Ctx) (p : CustomerPayload) (s : CanisterState),
       p.validate = true →
       add_customer ctx p s =
         some ({ id := s.customerCounter, name := p.name, contact := p.contact },
           { s with
              customerCounter := (s.customerCounter + 1) % 2 ^ 64,
              customerStorage := mapInsert s.customerStorage s.customerCounter
                ({ id := s.customerCounter, name := p.name, contact := p.contact }) })) := by
  constructor
  · intro ctx p s h
    simp [add_customer, h]
  · intro ctx p s h
    simp [add_customer, h, do_insert_customer]

/-- Fixture: a valid customer payload. -/
def wCustPayload : CustomerPayload := { name := "Alice", contact := "a@x.com" }

/-- Fixture: a customer payload with an empty name. -/
def wBadCustPayload : CustomerPayload := { name := "", contact := "" }

/-- Witness for C8 at an empty-name payload and at a valid payload. -/
theorem add_customer_trap_or_insert_witness :
    wBadCustPayload.validate = false ∧
    add_customer wCtx wBadCustPayload wState = none ∧
    wCustPayload.validate = true ∧
    add_customer wCtx wCustPayload wState =
      some ({ id := wState.customerCounter, name := wCustPayload.name,
              contact := wCustPayload.contact },
        { wState with
            customerCounter := (wState.customerCounter + 1) % 2 ^ 64,
            customerStorage := mapInsert wState.customerStorage wState.customerCounter
              ({ id := wState.customerCounter, name := wCustPayload.name,
                 contact := wCustPayload.contact }) }) :=
  ⟨by decide, add_customer_trap_or_insert.1 wCtx wBadCustPayload wState (by decide),
   by decide, add_customer_trap_or_insert.2 wCtx wCustPayload wState (by decide)⟩

/-- C9: `delete_customer` performs no authorization check: its result
and state change are identical for any two callers; on a stored id it
succeeds, returns the removed customer and removes exactly that entry,
and it returns `NotFound` exactly when the id is absent. -/
theorem delete_customer_no_auth :
    ∀ (ctx1 ctx2 : Ctx) (id : Nat) (s : CanisterState),
      delete_customer ctx1 id s = delete_customer ctx2 id s ∧
      (∀ c, mapGet s.customerStorage id = some c →
        delete_customer ctx1 id s =
          (Except.ok c, { s with customerStorage := mapRemove s.customerStorage id })) ∧
      (mapGet s.customerStorage id = none →
        delete_customer ctx1 id s =
          (Except.error (Error.NotFound s!"a customer with id={id} not found"), s)) := by
  intro ctx1 ctx2 id s
  refine ⟨rfl, ?_, ?_⟩
  · intro c hc
    simp [delete_customer, _get_customer, hc]
  · intro h
    simp [delete_customer, _get_customer, h]

/-- Witness for C9: two different callers delete customer 0; a missing
id 5 gives `NotFound`. -/
theorem delete_customer_no_auth_witness :
    delete_customer wCtx 0 wState = delete_customer wCtxOwner 0 wState ∧
    mapGet wState.customerStorage 0 = some wCustomer ∧
    delete_customer wCtx 0 wState =
      (Except.ok wCustomer, { wState with customerStorage := mapRemove wState.customerStorage 0 }) ∧
    mapGet wState.customerStorage 5 = none ∧
    delete_customer wCtx 5 wState =
      (Except.error (Error.NotFound "a customer with id=5 not found"), wState) :=
  ⟨(delete_customer_no_auth wCtx wCtxOwner 0 wState).1, rfl,
   (delete_customer_no_auth wCtx wCtxOwner 0 wState).2.1 wCustomer rfl,
   rfl,
   (delete_customer_no_auth wCtx wCtxOwner 5 wState).2.2 rfl⟩

/-- C10: along any trace from the initial state (counter 0, empty car
map) every key in the car storage is strictly below the vehicle id
counter, so the counter value is always a fresh key and a successful
`add_car` never overwrites an existing record.  The length bound only
rules out traces long enough to wrap the 64-bit counter. -/
theorem car_keys_below_counter :
    ∀ ops : List Op, ops.length < 2 ^ 64 →
      (∀ k v, (k, v) ∈ (run initState ops).carStorage → k < (run initState ops).idCounter) ∧
      mapGet (run initState ops).carStorage (run initState ops).idCounter = none := by
  intro ops h
  have hinv := carInvS_run ops initState
    (by intro k v hm; simp [initState] at hm)
    (by simpa [initState] using h)
  exact ⟨fun k v hm => (hinv k v hm).1,
         mapGet_eq_none_of_lt (fun k v hm => (hinv k v hm).1)⟩

/-- Witness for C10 on the fixture trace. -/
theorem car_keys_below_counter_witness :
    w2ops.length < 2 ^ 64 ∧
    ((∀ k v, (k, v) ∈ (run initState w2ops).carStorage → k < (run initState w2ops).idCounter) ∧
      mapGet (run initState w2ops).carStorage (run initState w2ops).idCounter = none) :=
  ⟨by decide, car_keys_below_counter w2ops (by decide)⟩

end CMS
